import Mathlib

/-!
Verification development for the `captain` connection manager
(`captain/connection.py`): a fan-out aggregator over Docker-compatible
container daemons providing inventory with inline garbage collection,
slot-capacity admission, start/stop lifecycle, and log reading.

Python 2 strings are embedded as `List Char` (`PyStr`); Python dicts that
the code builds by insertion are embedded as insertion-ordered association
lists with overwrite-in-place semantics (`dictInsert`).  Remote daemons are
embedded as oracles (`NodeDaemon`): a fixed container listing, an
inspection function, and per-call success flags that model whether a remote
call raises.  Side effects on daemons (create/start/stop/kill/remove) are
collected in an explicit trace (`Eff`).  `datetime.datetime.now()` is
embedded as an explicit `now : Int` parameter counted in seconds on the
same scale as parsed exit timestamps (seconds since the Unix epoch).
The bounded `lru_cache` memoisation of inspection results only affects the
number of remote round-trips, not any value returned in a single pass, and
is not modelled.
-/

set_option autoImplicit false

namespace Captain

/-- Python 2 `str`: a byte/character sequence, embedded as a list of chars. -/
abbrev PyStr := List Char

/-- Python `s.split(sep)` for a one-character separator: splits on every
occurrence, keeping empty pieces, and returns `[""]` on the empty string. -/
def pySplit (sep : Char) : PyStr → List PyStr
  | [] => [[]]
  | c :: cs =>
    if c = sep then
      [] :: pySplit sep cs
    else
      match pySplit sep cs with
      | [] => [[c]]
      | g :: gs => (c :: g) :: gs

/-- Python `s.split(sep, 1)` unpacked into two names: `none` models the
`ValueError` raised when `sep` does not occur in `s`. -/
def pySplit1 (sep : Char) : PyStr → Option (PyStr × PyStr)
  | [] => none
  | c :: cs =>
    if c = sep then
      some ([], cs)
    else
      (pySplit1 sep cs).map (fun p => (c :: p.1, p.2))

/-- Python `s.rstrip(t)` for a one-character strip set. -/
def pyRstrip (s : PyStr) (t : Char) : PyStr :=
  (s.reverse.dropWhile (fun c => c = t)).reverse

/-- Numeric value of a digit string (most significant digit first). -/
def digitsVal (s : PyStr) : Nat :=
  s.foldl (fun a c => a * 10 + (c.toNat - 48)) 0

/-- Parses a non-empty all-digit string, as matched by one `%Y`/`%m`/…
`strptime` directive. -/
def digits? (s : PyStr) : Option Nat :=
  if s ≠ [] ∧ s.all Char.isDigit then some (digitsVal s) else none

/-- Python `int(s)` on the literals this code meets: an optional sign
followed by a non-empty digit string; `none` models the `ValueError`
raised on anything else. -/
def pyInt? : PyStr → Option Int
  | '-' :: rest => (digits? rest).map (fun n => -(n : Int))
  | '+' :: rest => (digits? rest).map (fun n => (n : Int))
  | s => (digits? s).map (fun n => (n : Int))

/-- Gregorian leap-year rule, as used by `datetime`'s calendar. -/
def isLeapYear (y : Nat) : Bool :=
  y % 4 = 0 && (y % 100 ≠ 0 || y % 400 = 0)

/-- Length of month `m` of year `y`; `datetime` validates the day of the
month against this. -/
def daysInMonth (y m : Nat) : Nat :=
  if m = 2 then (if isLeapYear y then 29 else 28)
  else if m = 4 ∨ m = 6 ∨ m = 9 ∨ m = 11 then 30
  else 31

/-- Days from the Unix epoch (1970-01-01) to proleptic-Gregorian date
`y-m-d`; the standard civil-from-days inverse used by `datetime`'s ordinal
arithmetic.  `Int` division here truncates toward zero, matching the
reference formulation. -/
def daysFromCivil (y : Int) (m d : Nat) : Int :=
  let yAdj : Int := if m ≤ 2 then y - 1 else y
  let era : Int := (if 0 ≤ yAdj then yAdj else yAdj - 399) / 400
  let yoe : Int := yAdj - era * 400
  let mp : Int := if 2 < m then (m : Int) - 3 else (m : Int) + 9
  let doy : Int := (153 * mp + 2) / 5 + (d : Int) - 1
  let doe : Int := yoe * 365 + yoe / 4 - yoe / 100 + doy
  era * 146097 + doe - 719468

/-- A wall-clock timestamp as produced by
`strptime(_, '%Y-%m-%dT%H:%M:%S')`. -/
structure TimeStamp where
  year : Nat
  month : Nat
  day : Nat
  hour : Nat
  minute : Nat
  second : Nat
  deriving DecidableEq, Repr

/-- Models `datetime.datetime.strptime(s, '%Y-%m-%dT%H:%M:%S')`: a four-digit
year, one-or-two-digit month, day, hour, minute and second joined by the
literal separators, validated to a constructible `datetime` (month 1–12,
day within the month, hour ≤ 23, minute ≤ 59, second ≤ 59, year ≥ 1);
`none` models the `ValueError` raised otherwise. -/
def strptimeTS (s : PyStr) : Option TimeStamp :=
  match pySplit 'T' s with
  | [ds, ts] =>
    match pySplit '-' ds, pySplit ':' ts with
    | [ys, ms, dds], [hs, mins, ss] =>
      match digits? ys, digits? ms, digits? dds, digits? hs, digits? mins, digits? ss with
      | some y, some mo, some dd, some h, some mi, some sec =>
        if ys.length = 4 ∧ ms.length ≤ 2 ∧ dds.length ≤ 2 ∧ hs.length ≤ 2
            ∧ mins.length ≤ 2 ∧ ss.length ≤ 2
            ∧ 1 ≤ y ∧ 1 ≤ mo ∧ mo ≤ 12 ∧ 1 ≤ dd ∧ dd ≤ daysInMonth y mo
            ∧ h ≤ 23 ∧ mi ≤ 59 ∧ sec ≤ 59 then
          some ⟨y, mo, dd, h, mi, sec⟩
        else none
      | _, _, _, _, _, _ => none
    | _, _ => none
  | _ => none

/-- Seconds from the Unix epoch to a timestamp; `datetime` subtraction of
two parsed timestamps equals the difference of these values. -/
def tsSecs (t : TimeStamp) : Int :=
  daysFromCivil (t.year : Int) t.month t.day * 86400
    + (t.hour : Int) * 3600 + (t.minute : Int) * 60 + (t.second : Int)

/-- The exit-time parse of `get_node_instances`, line for line:
`strptime(finished_at.rstrip("Z").split('.')[0], '%Y-%m-%dT%H:%M:%S')`,
converted to epoch seconds. -/
def parseExitSecs (s : PyStr) : Option Int :=
  (strptimeTS ((pySplit '.' (pyRstrip s 'Z')).headD [])).map tsSecs

/-- The daemon's sentinel zero exit time, compared as a literal string. -/
def sentinelExit : PyStr := ("0001-01-01T00:00:00Z").data

/-- Static configuration consumed by the connection manager. -/
structure Config where
  slotsPerNode : Nat
  defaultSlotsPerInstance : Nat
  slotMemoryMb : Nat
  dockerGcGracePeriod : Int
  slugRunnerImage : PyStr
  slugRunnerCommand : PyStr
  deriving DecidableEq, Repr

/-- One entry of a raw container record's `Ports` list. -/
structure PortEntry where
  privatePort : Nat
  deriving DecidableEq, Repr

/-- A raw container record as returned by the daemon's `containers` listing:
the fields `connection.py` reads. -/
structure ContainerSummary where
  id : PyStr
  status : PyStr
  ports : List PortEntry
  deriving DecidableEq, Repr

/-- An inspection record as returned by `inspect_container`: the fields
`connection.py` reads.  `hostPort` is the string at
`NetworkSettings.Ports["8080/tcp"][0].HostPort`, `none` when any link of
that chain is missing. -/
structure InspectRecord where
  id : PyStr
  name : PyStr
  env : List PyStr
  cpuShares : Nat
  hostPort : Option PyStr
  finishedAt : PyStr
  deriving DecidableEq, Repr

/-- Python exceptions surfaced by the embedded operations. -/
inductive PyErr where
  | keyError (k : PyStr)
  | valueError
  | apiError
  | noSuchNode
  | noSuchInstance
  | nodeOutOfCapacity
  deriving DecidableEq, Repr

/-- The `Instance` value record returned by projection. -/
structure Instance where
  id : PyStr
  app : PyStr
  slugUri : Option PyStr
  node : PyStr
  port : Int
  environment : List (PyStr × PyStr)
  slots : Nat
  deriving DecidableEq, Repr

/-- The argument record of a `create_container` call. -/
structure CreateSpec where
  image : PyStr
  command : PyStr
  ports : List Nat
  environment : List (PyStr × PyStr)
  detach : Bool
  hostname : Option PyStr
  name : PyStr
  cpuShares : Nat
  memLimit : Nat
  deriving DecidableEq, Repr

/-- A side-effecting remote call issued against some node's daemon.
`Eff.start` carries the `port_bindings` argument (`none` on the repair
path, `some [(8080, none)]` on the lifecycle path); `Eff.remove` carries
the `force` flag. -/
inductive Eff where
  | create (node : PyStr) (spec : CreateSpec)
  | start (node id : PyStr) (portBindings : Option (List (Nat × Option Nat)))
  | kill (node id : PyStr)
  | stop (node id : PyStr)
  | remove (node id : PyStr) (force : Bool)
  deriving DecidableEq, Repr

/-- Oracle for one remote daemon: its container listing, its inspection
responses, the id its `create` call assigns, per-call success flags
(`false` models the call raising an `APIError`/transport error), and its
log responses (`logsBlob` the one-shot blob, `logsRaw` the raw chunk
sequence of the streaming response). -/
structure NodeDaemon where
  containers : List ContainerSummary
  inspect : PyStr → InspectRecord
  createId : PyStr
  createOk : Bool
  startOk : PyStr → Bool
  killOk : PyStr → Bool
  stopOk : PyStr → Bool
  removeOk : PyStr → Bool
  logsBlob : PyStr → PyStr
  logsRaw : PyStr → List PyStr

/-- Python dict insertion `d[k] = v` on an insertion-ordered association
list: overwrites in place when the key is present, appends otherwise. -/
def dictInsert (d : List (PyStr × PyStr)) (k v : PyStr) : List (PyStr × PyStr) :=
  if d.any (fun p => p.1 = k) then
    d.map (fun p => if p.1 = k then (k, v) else p)
  else
    d ++ [(k, v)]

/-- Python dict lookup `d.get(k)`. -/
def dictFind? (d : List (PyStr × PyStr)) (k : PyStr) : Option PyStr :=
  (d.find? (fun p => p.1 = k)).map (fun p => p.2)

/-- The reserved environment keys hidden from a projected instance. -/
def reservedEnvKeys : List PyStr :=
  [("HOME").data, ("PATH").data, ("SLUG_URL").data, ("PORT").data]

/-- The env loop of `__get_instance`: each entry is split on its first
`=` (`ValueError` when there is none); non-reserved keys land in the
environment dict and the last `SLUG_URL` value is remembered. -/
def projEnvLoop : List PyStr → List (PyStr × PyStr) → Option PyStr →
    Except PyErr (List (PyStr × PyStr) × Option PyStr)
  | [], envAcc, slug => .ok (envAcc, slug)
  | item :: rest, envAcc, slug =>
    match pySplit1 '=' item with
    | none => .error .valueError
    | some (k, v) =>
      let envAcc' := if k ∈ reservedEnvKeys then envAcc else dictInsert envAcc k v
      let slug' := if k = ("SLUG_URL").data then some v else slug
      projEnvLoop rest envAcc' slug'

/-- The app-name parse `container["Name"][1:].split("_")[0]` recovering the
app name from a
stored container name. -/
def appOfName (name : PyStr) : PyStr :=
  (pySplit '_' (name.drop 1)).headD []

/-- The projection `Connection.__get_instance`: projects one inspection record to an
`Instance`.  Failures mirror the uncaught Python exceptions: `ValueError`
from a malformed env entry, `KeyError` from a missing port binding,
`ValueError` from a non-numeric `HostPort`. -/
def __get_instance (node : PyStr) (c : InspectRecord) : Except PyErr Instance :=
  let app := appOfName c.name
  match projEnvLoop c.env [] none with
  | .error e => .error e
  | .ok (environment, slugUri) =>
    match c.hostPort with
    | none => .error (.keyError (("8080/tcp").data))
    | some ps =>
      match pyInt? ps with
      | none => .error .valueError
      | some port => .ok ⟨c.id, app, slugUri, node, port, environment, c.cpuShares⟩

/-- The per-container loop of `Connection.get_node_instances`, with the
remaining listing as explicit argument.  Returns the trace of daemon calls
issued and either the emitted instances or the first uncaught exception.
Exited containers (status not starting with `"Up "`) are inspected, their
exit time parsed, and either repaired (sentinel time: `start` then `kill`),
garbage collected (`remove` when older than the grace period) or left
alone; none of them is emitted.  `Up` containers are emitted only when
they expose exactly one port with private port 8080. -/
def get_node_instances_go (cfg : Config) (node : PyStr) (d : NodeDaemon) (now : Int) :
    List ContainerSummary → List Eff × Except PyErr (List Instance)
  | [] => ([], .ok [])
  | c :: cs =>
    if !(((("Up ").data).isPrefixOf c.status)) then
      match parseExitSecs (d.inspect c.id).finishedAt with
      | none => ([], .error .valueError)
      | some exitT =>
        if (d.inspect c.id).finishedAt = sentinelExit then
          if d.startOk c.id then
            if d.killOk c.id then
              (.start node c.id none :: .kill node c.id ::
                  (get_node_instances_go cfg node d now cs).1,
                (get_node_instances_go cfg node d now cs).2)
            else
              ([.start node c.id none, .kill node c.id], .error .apiError)
          else
            ([.start node c.id none], .error .apiError)
        else if cfg.dockerGcGracePeriod < now - exitT then
          if d.removeOk c.id then
            (.remove node c.id false :: (get_node_instances_go cfg node d now cs).1,
              (get_node_instances_go cfg node d now cs).2)
          else
            ([.remove node c.id false], .error .apiError)
        else
          get_node_instances_go cfg node d now cs
    else
      match c.ports with
      | [p] =>
        if p.privatePort = 8080 then
          match __get_instance node (d.inspect c.id) with
          | .error e => ([], .error e)
          | .ok inst =>
            ((get_node_instances_go cfg node d now cs).1,
              (get_node_instances_go cfg node d now cs).2.map (fun l => inst :: l))
        else
          get_node_instances_go cfg node d now cs
      | _ => get_node_instances_go cfg node d now cs

/-- The operation `Connection.get_node_instances(node)`. -/
def get_node_instances (cfg : Config) (node : PyStr) (d : NodeDaemon) (now : Int) :
    List Eff × Except PyErr (List Instance) :=
  get_node_instances_go cfg node d now d.containers

/-- Instances of a node result, with a failed node contributing zero
instances (the fleet loop logs and swallows per-node exceptions). -/
def okInstances : Except PyErr (List Instance) → List Instance
  | .ok l => l
  | .error _ => []

/-- The dict access `self.node_connections[name]` as a lookup: `none` is a
`KeyError`. -/
def lookupNode (fleet : List (PyStr × NodeDaemon)) (n : PyStr) : Option NodeDaemon :=
  (fleet.find? (fun p => p.1 = n)).map (fun p => p.2)

/-- The filter test `if node_filter and node != node_filter: continue` —
an empty-string filter is falsy and filters nothing. -/
def skipNode (nodeFil : Option PyStr) (n : PyStr) : Bool :=
  match nodeFil with
  | some f => !(f.isEmpty) && !(decide (n = f))
  | none => false

/-- The fleet fold of `Connection.get_instances`: a node is skipped when
the filter is truthy (non-empty) and names a different node; per-node
failures contribute zero instances.  The worker pool completes nodes in an
unspecified order; the embedding fixes configuration order, which the
claims do not depend on. -/
def get_instances_go (cfg : Config) (now : Int) (nodeFil : Option PyStr) :
    List (PyStr × NodeDaemon) → List Eff × List Instance
  | [] => ([], [])
  | (n, d) :: rest =>
    if skipNode nodeFil n then
      get_instances_go cfg now nodeFil rest
    else
      ((get_node_instances cfg n d now).1 ++ (get_instances_go cfg now nodeFil rest).1,
        okInstances (get_node_instances cfg n d now).2 ++ (get_instances_go cfg now nodeFil rest).2)

/-- The operation `Connection.get_instances(node_filter)`. -/
def get_instances (cfg : Config) (fleet : List (PyStr × NodeDaemon)) (now : Int)
    (nodeFil : Option PyStr) : List Eff × List Instance :=
  get_instances_go cfg now nodeFil fleet

/-- The slot defaulting `if not slots: slots = default_slots_per_instance` —
Python falsiness defaults both `None` and `0`. -/
def resolveSlots (cfg : Config) : Option Nat → Nat
  | none => cfg.defaultSlotsPerInstance
  | some 0 => cfg.defaultSlotsPerInstance
  | some (k + 1) => k + 1

/-- The reserved-key writes of `start_instance`:
`environment["PORT"] = "8080"; environment["SLUG_URL"] = slug_uri`,
performed on the caller's mapping in place. -/
def startEnvWrites (environment : List (PyStr × PyStr)) (slug_uri : PyStr) :
    List (PyStr × PyStr) :=
  dictInsert (dictInsert environment (("PORT").data) (("8080").data))
    (("SLUG_URL").data) slug_uri

/-- The tail of `Connection.start_instance` after the reserved-key env
writes: slot
defaulting, the admission check `len(get_instances(node_filter=node)) +
slots > slots_per_node`, node-connection lookup (a plain dict access —
`KeyError` when the node is unknown), then `create_container`, `start`
with `port_bindings={8080: None}`, a direct `inspect_container` and the
projection of its result. -/
def start_instance_body (cfg : Config) (fleet : List (PyStr × NodeDaemon)) (now : Int)
    (app : PyStr) (node : PyStr) (env : List (PyStr × PyStr)) (slots? : Option Nat)
    (hostname : Option PyStr) (uuid : PyStr) : List Eff × Except PyErr Instance :=
  let slots := resolveSlots cfg slots?
  let inv := get_instances cfg fleet now (some node)
  if cfg.slotsPerNode < inv.2.length + slots then
    (inv.1, .error .nodeOutOfCapacity)
  else
    match lookupNode fleet node with
    | none => (inv.1, .error (.keyError node))
    | some d =>
      let spec : CreateSpec :=
        ⟨cfg.slugRunnerImage, cfg.slugRunnerCommand, [8080], env, true, hostname,
          app ++ '_' :: uuid, slots, cfg.slotMemoryMb * slots * 1024 * 1024⟩
      if d.createOk then
        let cid := d.createId
        if d.startOk cid then
          (inv.1 ++ [.create node spec, .start node cid (some [(8080, none)])],
            __get_instance node (d.inspect cid))
        else
          (inv.1 ++ [.create node spec, .start node cid (some [(8080, none)])],
            .error .apiError)
      else
        (inv.1 ++ [.create node spec], .error .apiError)

/-- The operation `Connection.start_instance`.  The first component is the caller's
environment mapping after the in-place reserved-key writes; `uuid` stands
for the fresh `uuid.uuid4()` value. -/
def start_instance (cfg : Config) (fleet : List (PyStr × NodeDaemon)) (now : Int)
    (app slug_uri node : PyStr) (environment : List (PyStr × PyStr))
    (slots? : Option Nat) (hostname : Option PyStr) (uuid : PyStr) :
    List (PyStr × PyStr) × List Eff × Except PyErr Instance :=
  let env := startEnvWrites environment slug_uri
  (env, start_instance_body cfg fleet now app node env slots? hostname uuid)

/-- A call to `start_instance` under Python's default-argument semantics
for `environment={}`: the default dict is a single module-level object,
created once; a call that omits the argument reads and mutates that shared
object, so its writes persist into later defaulted calls.  The second
component is the default object after the call. -/
def start_instance_defaulted (cfg : Config) (fleet : List (PyStr × NodeDaemon))
    (now : Int) (app slug_uri node : PyStr)
    (envArg : Option (List (PyStr × PyStr))) (slots? : Option Nat)
    (hostname : Option PyStr) (uuid : PyStr)
    (defaultEnv : List (PyStr × PyStr)) :
    (List (PyStr × PyStr) × List Eff × Except PyErr Instance) × List (PyStr × PyStr) :=
  match envArg with
  | some e => (start_instance cfg fleet now app slug_uri node e slots? hostname uuid, defaultEnv)
  | none =>
    let r := start_instance cfg fleet now app slug_uri node defaultEnv slots? hostname uuid
    (r, r.1)

/-- The operation `Connection.stop_instance`: a global `get_instances()` locates the
owning node; a miss returns `False`; a hit issues `stop` then
`remove(force=True)`, the latter's failure swallowed, and returns `True`.
A failing `stop` propagates. -/
def stop_instance (cfg : Config) (fleet : List (PyStr × NodeDaemon)) (now : Int)
    (instance_id : PyStr) : List Eff × Except PyErr Bool :=
  let inv := get_instances cfg fleet now none
  match inv.2.find? (fun i => i.id = instance_id) with
  | none => (inv.1, .ok false)
  | some inst =>
    match lookupNode fleet inst.node with
    | none => (inv.1, .error (.keyError inst.node))
    | some d =>
      if d.stopOk instance_id then
        (inv.1 ++ [.stop inst.node instance_id, .remove inst.node instance_id true],
          .ok true)
      else
        (inv.1 ++ [.stop inst.node instance_id], .error .apiError)

/-- Big-endian unsigned 32-bit payload length from bytes 4–7 of the
buffered header, as unpacked by `struct.unpack('>BxxxL', buffer[:8])`. -/
def frameLen (buf : PyStr) : Nat :=
  (buf.getD 4 (Char.ofNat 0)).toNat * 16777216
    + (buf.getD 5 (Char.ofNat 0)).toNat * 65536
    + (buf.getD 6 (Char.ofNat 0)).toNat * 256
    + (buf.getD 7 (Char.ofNat 0)).toNat

/-- The header-parse step of the loop body:
`if not length and len(data_buffer) > 8: _, length = unpack(...)`.
`none` is Python's `None` and `some 0` the falsy zero; both trigger a
reparse once more than 8 bytes are buffered. -/
def parseStep (len0 : Option Nat) (buf : PyStr) : Option Nat :=
  if (len0 = none ∨ len0 = some 0) ∧ 8 < buf.length then
    some (frameLen buf)
  else len0

/-- The loop of `__hacked_multiplexed_socket_stream_helper` over the
response's chunk iterator.  State: the accumulated buffer and the parsed
`length`.  Each iteration first pulls one chunk (returning at end of
input), reparses the header when `length` is falsy and more than 8 bytes
are buffered (`parseStep`), and emits one payload exactly when `length`
is truthy (`1 ≤ _`) and the payload is fully buffered
(`len(data_buffer[8:]) >= length`). -/
def mplexLoop : List PyStr → PyStr → Option Nat → List PyStr
  | [], _, _ => []
  | chunk :: rest, buf0, len0 =>
    if 1 ≤ (parseStep len0 (buf0 ++ chunk)).getD 0
        ∧ (parseStep len0 (buf0 ++ chunk)).getD 0 ≤ (buf0 ++ chunk).length - 8 then
      ((buf0 ++ chunk).drop 8).take ((parseStep len0 (buf0 ++ chunk)).getD 0)
        :: mplexLoop rest
            ((buf0 ++ chunk).drop (8 + (parseStep len0 (buf0 ++ chunk)).getD 0)) none
    else
      mplexLoop rest (buf0 ++ chunk) (parseStep len0 (buf0 ++ chunk))

/-- The hack `__hacked_multiplexed_socket_stream_helper`: the framed log-stream
decoder installed on each docker client, as a function from the
response's chunk sequence to the sequence of emitted payload chunks. -/
def __hacked_multiplexed_socket_stream_helper (chunks : List PyStr) : List PyStr :=
  mplexLoop chunks [] none

/-- The two shapes of `get_logs` output: one msg record per line in
one-shot mode, one msg record per decoded frame in follow mode.  Only the
`msg` values are carried; the `{"msg": _}` wrapper adds nothing. -/
inductive LogOutput where
  | lines (records : List PyStr)
  | frames (records : List PyStr)
  deriving DecidableEq, Repr

/-- The operation `Connection.get_logs`: locates the instance via a global
`get_instances()` (`IndexError` on a miss becomes
`NoSuchInstanceException`), then either decodes the streaming response
(follow mode) or splits the full blob on `"\n"` and emits each piece with
a newline appended. -/
def get_logs (cfg : Config) (fleet : List (PyStr × NodeDaemon)) (now : Int)
    (instance_id : PyStr) (follow : Bool) : List Eff × Except PyErr LogOutput :=
  let inv := get_instances cfg fleet now none
  match inv.2.find? (fun i => i.id = instance_id) with
  | none => (inv.1, .error .noSuchInstance)
  | some inst =>
    match lookupNode fleet inst.node with
    | none => (inv.1, .error (.keyError inst.node))
    | some d =>
      if follow then
        (inv.1, .ok (.frames (__hacked_multiplexed_socket_stream_helper (d.logsRaw instance_id))))
      else
        (inv.1, .ok (.lines ((pySplit '\n' (d.logsBlob instance_id)).map (fun l => l ++ ['\n']))))

/-- Classifies the daemon calls that an inventory pass may issue: repair
`start` (no port bindings), repair `kill`, and GC `remove` without
`force`. -/
def isInventoryEff : Eff → Bool
  | .start _ _ none => true
  | .kill _ _ => true
  | .remove _ _ false => true
  | _ => false

/-! Concrete fixtures: a configuration and small daemon states used to
evaluate the operations on explicit inputs. -/

/-- The test configuration: 10 slots per node, default 2 slots per
instance, 128 MB per slot, one-day GC grace period. -/
def cfg0 : Config :=
  ⟨10, 2, 128, 86400, ("runner/image").data, ("runner command").data⟩

/-- Inspection record of a running container holding 4 slots, bound to
host port 9225. -/
def recUp1 : InspectRecord :=
  ⟨("c1").data, ("/app1_aaaa").data, [("JAVA_OPTS=-Xmx256m").data], 4,
    some (("9225").data), ("0001-01-01T00:00:00Z").data⟩

/-- Inspection record of a running container holding 4 slots, bound to
host port 9317. -/
def recUp2 : InspectRecord :=
  ⟨("c2").data, ("/app2_bbbb").data, [("JAVA_OPTS=-Xmx256m").data], 4,
    some (("9317").data), ("0001-01-01T00:00:00Z").data⟩

/-- Inspection record the daemon returns for a freshly created container
(id `new1`, app `paye`, 3 slots, host port 9999). -/
def recNew : InspectRecord :=
  ⟨("new1").data, ("/paye_u0").data, [("PORT=8080").data], 3,
    some (("9999").data), ("0001-01-01T00:00:00Z").data⟩

/-- Listing entry for `recUp1`. -/
def sumUp1 : ContainerSummary :=
  ⟨("c1").data, ("Up 40 minutes").data, [⟨8080⟩]⟩

/-- Listing entry for `recUp2`. -/
def sumUp2 : ContainerSummary :=
  ⟨("c2").data, ("Up 56 minutes").data, [⟨8080⟩]⟩

/-- A healthy daemon with two running 4-slot containers; `create` assigns
id `new1`. -/
def dC1 : NodeDaemon :=
  ⟨[sumUp1, sumUp2],
    fun i => if i = ("c1").data then recUp1
      else if i = ("c2").data then recUp2 else recNew,
    ("new1").data, true, fun _ => true, fun _ => true, fun _ => true, fun _ => true,
    fun _ => [], fun _ => []⟩

/-- A one-node fleet built from `dC1`, configured as `node-1`. -/
def fleetC1 : List (PyStr × NodeDaemon) := [(("node-1").data, dC1)]

/-- Inspection record of a long-exited container (finished 2014-01-01). -/
def recOld : InspectRecord :=
  ⟨("g1").data, ("/old_x").data, [], 0, none, ("2014-01-01T00:00:00Z").data⟩

/-- Listing entry for `recOld`. -/
def sumOld : ContainerSummary :=
  ⟨("g1").data, ("Exited (0) 3 days ago").data, []⟩

/-- A daemon whose only container is GC-eligible. -/
def dGC : NodeDaemon :=
  ⟨[sumOld], fun _ => recOld, ("nid").data, true,
    fun _ => true, fun _ => true, fun _ => true, fun _ => true,
    fun _ => [], fun _ => []⟩

/-- A one-node fleet built from `dGC`. -/
def fleetGC : List (PyStr × NodeDaemon) := [(("node-g").data, dGC)]

/-- An inventory instant well past `recOld`'s exit plus the grace
period (epoch seconds, mid-2014). -/
def nowGC : Int := 1400000000

/-- Inspection record of an exited container carrying the sentinel zero
exit time. -/
def recSent : InspectRecord :=
  ⟨("s1").data, ("/a_b").data, [], 0, none, sentinelExit⟩

/-- Listing entry for `recSent`. -/
def sumSent : ContainerSummary :=
  ⟨("s1").data, ("Exited (0) 40 minutes ago").data, []⟩

/-- A daemon listing the sentinel container followed by a healthy running
one, whose `start` calls all fail. -/
def dSentFail : NodeDaemon :=
  ⟨[sumSent, sumUp2],
    fun i => if i = ("s1").data then recSent else recUp2,
    ("nid").data, true, fun _ => false, fun _ => true, fun _ => true, fun _ => true,
    fun _ => [], fun _ => []⟩

/-- Same listing as `dSentFail` but with every call succeeding. -/
def dSentOk : NodeDaemon :=
  ⟨[sumSent, sumUp2],
    fun i => if i = ("s1").data then recSent else recUp2,
    ("nid").data, true, fun _ => true, fun _ => true, fun _ => true, fun _ => true,
    fun _ => [], fun _ => []⟩

/-- Inspection record of an exited container with a sub-second fractional
exit time (epoch second 1408524597). -/
def recOld5 : InspectRecord :=
  ⟨("old5").data, ("/o_x").data, [], 0, none, ("2014-08-20T08:49:57.123456Z").data⟩

/-- Listing entry for `recOld5`. -/
def sumOld5 : ContainerSummary :=
  ⟨("old5").data, ("Exited (0) 5 weeks ago").data, []⟩

/-- A daemon whose only container is `recOld5`. -/
def dOld5 : NodeDaemon :=
  ⟨[sumOld5], fun _ => recOld5, ("nid").data, true,
    fun _ => true, fun _ => true, fun _ => true, fun _ => true,
    fun _ => [], fun _ => []⟩

/-- Inspection record of a running container whose `HostPort` is the
non-numeric string `none`. -/
def recBad : InspectRecord :=
  ⟨("b1").data, ("/bad_x").data, [("K=V").data], 2,
    some (("none").data), ("0001-01-01T00:00:00Z").data⟩

/-- Listing entry for `recBad`: an `Up` container passing the port
filter. -/
def sumBad : ContainerSummary :=
  ⟨("b1").data, ("Up 5 minutes").data, [⟨8080⟩]⟩

/-- A daemon listing a well-formed running container followed by the
malformed `recBad`. -/
def dC9 : NodeDaemon :=
  ⟨[sumUp2, sumBad],
    fun i => if i = ("b1").data then recBad else recUp2,
    ("nid").data, true, fun _ => true, fun _ => true, fun _ => true, fun _ => true,
    fun _ => [], fun _ => []⟩

/-- Inspection record of the running container `i1` used by the log
fixtures. -/
def recI1 : InspectRecord :=
  ⟨("i1").data, ("/logapp_cccc").data, [("SLUG_URL=https://host/s.tgz").data], 2,
    some (("9317").data), ("0001-01-01T00:00:00Z").data⟩

/-- Listing entry for `recI1`. -/
def sumI1 : ContainerSummary :=
  ⟨("i1").data, ("Up 19 minutes").data, [⟨8080⟩]⟩

/-- A daemon hosting `i1` whose one-shot log blob is two newline-terminated
lines and whose `remove` calls fail. -/
def dLog : NodeDaemon :=
  ⟨[sumI1], fun _ => recI1, ("nid").data, true,
    fun _ => true, fun _ => true, fun _ => true, fun _ => false,
    fun _ => ("this is line 1\nthis is line 2\n").data, fun _ => []⟩

/-- A one-node fleet built from `dLog`. -/
def fleetLog : List (PyStr × NodeDaemon) := [(("node-l").data, dLog)]

/-- A record whose stored name embeds the underscore-bearing app name
`paye_216` (container name `paye_216_SOME-UUID`, stored with a leading
slash). -/
def recC6 : InspectRecord :=
  ⟨("x1").data, ("/paye_216_SOME-UUID").data, [], 2,
    some (("9317").data), ("0001-01-01T00:00:00Z").data⟩

/-- Byte `n` of a framed log stream, as a character of the Python 2
byte string. -/
def byteChr (n : Nat) : Char := Char.ofNat n

/-- An 8-byte frame header with stream kind 1 and payload length 3. -/
def hdr3 : PyStr :=
  [byteChr 1, byteChr 0, byteChr 0, byteChr 0, byteChr 0, byteChr 0, byteChr 0, byteChr 3]

/-- An 8-byte frame header with stream kind 1 and payload length 1. -/
def hdr1 : PyStr :=
  [byteChr 1, byteChr 0, byteChr 0, byteChr 0, byteChr 0, byteChr 0, byteChr 0, byteChr 1]

/-- First 10-byte chunk of the two-frame stream: the length-3 header and
the first two payload bytes. -/
def chunkA : PyStr := hdr3 ++ [ 'A', 'B' ]

/-- Second chunk: the last payload byte of frame one, then a complete
length-1 frame. -/
def chunkB : PyStr := 'C' :: hdr1 ++ [ 'X' ]

/-- The start request evaluated against `fleetC1`: app `paye`, 3 slots,
no caller environment. -/
def startC1 : List (PyStr × PyStr) × List Eff × Except PyErr Instance :=
  start_instance cfg0 fleetC1 0 (("paye").data) (("https://host/p.tgz").data)
    (("node-1").data) [] (some 3) none (("u0").data)

/-- The `create_container` argument record that `startC1` issues. -/
def specC1 : CreateSpec :=
  ⟨cfg0.slugRunnerImage, cfg0.slugRunnerCommand, [8080],
    [((("PORT").data), (("8080").data)), ((("SLUG_URL").data), (("https://host/p.tgz").data))],
    true, none, ("paye_u0").data, 3, 402653184⟩

/-- The instance `startC1` returns, projected from `recNew`. -/
def instNewC1 : Instance :=
  ⟨("new1").data, ("paye").data, none, ("node-1").data, 9999, [], 3⟩

/-- The instance projected from `recI1` on `node-l`. -/
def instI1 : Instance :=
  ⟨("i1").data, ("logapp").data, some (("https://host/s.tgz").data),
    ("node-l").data, 9317, [], 2⟩

/-! General lemmas about the embedded operations. -/

theorem pySplit_ne_nil (sep : Char) (l : PyStr) : pySplit sep l ≠ [] := by
  induction l with
  | nil => simp [pySplit]
  | cons c cs ih =>
    simp only [pySplit]
    split
    · simp
    · cases h : pySplit sep cs with
      | nil => simp
      | cons g gs => simp

theorem pySplit_cons_of_ne {sep c : Char} (l : PyStr) (h : c ≠ sep) :
    pySplit sep (c :: l) = (c :: (pySplit sep l).headD []) :: (pySplit sep l).tail := by
  simp only [pySplit, if_neg h]
  cases hl : pySplit sep l with
  | nil => exact absurd hl (pySplit_ne_nil sep l)
  | cons g gs => simp

/-- A Python split has one more piece than the string has separators. -/
theorem pySplit_length (sep : Char) (l : PyStr) :
    (pySplit sep l).length = l.count sep + 1 := by
  induction l with
  | nil => simp [pySplit]
  | cons c cs ih =>
    by_cases h : c = sep
    · subst h
      simp [pySplit, ih, List.count_cons]
    · rw [pySplit_cons_of_ne cs h]
      have hne := pySplit_ne_nil sep cs
      cases hl : pySplit sep cs with
      | nil => exact absurd hl hne
      | cons g gs =>
        simp only [hl, List.length_cons] at ih
        simp [List.count_cons, h, ih]

/-- Head component of a Python split: `s.split(sep)[0]` is the longest
prefix of `s` free of `sep`. -/
theorem pySplit_headD (sep : Char) (l : PyStr) :
    (pySplit sep l).headD [] = l.takeWhile (fun c => !(c = sep)) := by
  induction l with
  | nil => simp [pySplit]
  | cons c cs ih =>
    by_cases h : c = sep
    · subst h
      simp [pySplit, List.takeWhile]
    · rw [pySplit_cons_of_ne cs h]
      simp only [List.headD_eq_head?_getD] at ih
      simp [List.takeWhile, h, ih]

/-- The sentinel exit time parses (to the epoch-seconds value of
0001-01-01T00:00:00), so the Python code reaches the literal string
comparison after `strptime`. -/
theorem parseExitSecs_sentinel : parseExitSecs sentinelExit = some (-62135596800) := by
  decide

/-- A `takeWhile` crosses an entirely satisfying prefix and stops at the
first failing element. -/
theorem takeWhile_append_stop {p : Char → Bool} {x : Char} (A u : PyStr)
    (hA : ∀ c ∈ A, p c = true) (hx : p x = false) :
    (A ++ x :: u).takeWhile p = A := by
  induction A with
  | nil => simp [List.takeWhile, hx]
  | cons a A' ih =>
    have ha : p a = true := hA a (by simp)
    simp only [List.cons_append, List.takeWhile_cons, ha, if_pos]
    rw [ih (fun c hc => hA c (by simp [hc]))]

/-- An app name free of underscores survives the round trip through
container naming and `__get_instance`'s name parse. -/
theorem appOfName_round_trip (A uuid : PyStr) (hA : '_' ∉ A) :
    appOfName ('/' :: (A ++ '_' :: uuid)) = A := by
  unfold appOfName
  rw [List.drop_one, List.tail_cons, pySplit_headD]
  exact takeWhile_append_stop A uuid
    (fun c hc => by simp; exact fun h => hA (h ▸ hc)) (by simp)

/-- The `app` field of any successful projection is the name parse of the
inspected record. -/
theorem __get_instance_app (node : PyStr) (c : InspectRecord) (i : Instance)
    (h : __get_instance node c = .ok i) : i.app = appOfName c.name := by
  unfold __get_instance at h
  rcases he : projEnvLoop c.env [] none with e | ⟨env, slug⟩ <;> simp only [he] at h
  · simp at h
  · rcases hp : c.hostPort with _ | ps <;> simp only [hp] at h
    · simp at h
    · rcases hi : pyInt? ps with _ | port <;> simp only [hi] at h
      · simp at h
      · cases h
        rfl

/-- A truthy node filter naming no configured node filters out the whole
fleet. -/
theorem get_instances_all_filtered (cfg : Config) (now : Int) (node : PyStr)
    (fleet : List (PyStr × NodeDaemon)) (hne : node ≠ [])
    (h : ∀ p ∈ fleet, p.1 ≠ node) :
    get_instances cfg fleet now (some node) = ([], []) := by
  induction fleet with
  | nil => rfl
  | cons nd rest ih =>
    cases nd with
    | mk n d =>
      have hn : n ≠ node := h (n, d) (by simp)
      have hie : node.isEmpty = false := by
        cases node with
        | nil => exact absurd rfl hne
        | cons a as => rfl
      have hskip : skipNode (some node) n = true := by
        simp [skipNode, hie, hn]
      rw [get_instances] at ih ⊢
      rw [get_instances_go, if_pos hskip]
      exact ih (fun p hp => h p (by simp [hp]))

/-- The node-connection lookup misses exactly when no configured pair
carries the name. -/
theorem lookupNode_none (fleet : List (PyStr × NodeDaemon)) (node : PyStr)
    (h : lookupNode fleet node = none) : ∀ p ∈ fleet, p.1 ≠ node := by
  intro p hp
  unfold lookupNode at h
  rcases hf : fleet.find? (fun p => p.1 = node) with _ | q
  · have := List.find?_eq_none.mp hf p hp
    simpa using this
  · rw [hf] at h
    simp at h

/-- Every daemon call issued by an inventory pass is a repair `start`, a
repair `kill`, or an unforced GC `remove`. -/
theorem get_node_instances_go_effs (cfg : Config) (node : PyStr) (d : NodeDaemon)
    (now : Int) (l : List ContainerSummary) :
    ∀ e ∈ (get_node_instances_go cfg node d now l).1, isInventoryEff e = true := by
  induction l with
  | nil => intro e he; simp [get_node_instances_go] at he
  | cons c cs ih =>
    intro e he
    rw [get_node_instances_go] at he
    split at he
    · split at he
      · simp at he
      · split at he
        · split at he
          · split at he
            · simp only [List.mem_cons] at he
              rcases he with h | h | h
              · subst h; rfl
              · subst h; rfl
              · exact ih e h
            · simp only [List.mem_cons] at he
              rcases he with h | h | h
              · subst h; rfl
              · subst h; rfl
              · simp at h
          · simp only [List.mem_cons] at he
            rcases he with h | h
            · subst h; rfl
            · simp at h
        · split at he
          · split at he
            · simp only [List.mem_cons] at he
              rcases he with h | h
              · subst h; rfl
              · exact ih e h
            · simp only [List.mem_cons] at he
              rcases he with h | h
              · subst h; rfl
              · simp at h
          · exact ih e he
    · split at he
      · split at he
        · split at he
          · simp at he
          · exact ih e he
        · exact ih e he
      · exact ih e he

/-- The parsed payload length of a buffer opening with an explicit 8-byte
header is the big-endian value of its bytes 4 to 7, whatever follows. -/
theorem frameLen_header (k r1 r2 r3 b4 b5 b6 b7 : Char) (p : PyStr) :
    frameLen ([k, r1, r2, r3, b4, b5, b6, b7] ++ p)
      = b4.toNat * 16777216 + b5.toNat * 65536 + b6.toNat * 256 + b7.toNat := by
  simp [frameLen]

/-- A falsy length is reparsed once more than 8 bytes are buffered. -/
theorem parseStep_none (buf : PyStr) (h : 8 < buf.length) :
    parseStep none buf = some (frameLen buf) :=
  if_pos ⟨Or.inl rfl, h⟩

/-- Appending to an 8-byte-or-longer buffer does not change the parsed
header bytes. -/
theorem frameLen_append (buf c : PyStr) (h : 8 ≤ buf.length) :
    frameLen (buf ++ c) = frameLen buf := by
  unfold frameLen
  rw [List.getD_append _ _ _ _ (by omega), List.getD_append _ _ _ _ (by omega),
    List.getD_append _ _ _ _ (by omega), List.getD_append _ _ _ _ (by omega)]

/-- A frame whose 8-byte header and full payload (of truthy length) open a
chunk is emitted as exactly that payload, and decoding resumes on the
remaining chunks with an empty buffer. -/
theorem mplexLoop_frame (k r1 r2 r3 b4 b5 b6 b7 : Char) (p : PyStr)
    (rest : List PyStr)
    (hlen : b4.toNat * 16777216 + b5.toNat * 65536 + b6.toNat * 256 + b7.toNat
      = p.length)
    (hpos : 1 ≤ p.length) :
    mplexLoop (([k, r1, r2, r3, b4, b5, b6, b7] ++ p) :: rest) [] none
      = p :: mplexLoop rest [] none := by
  have hlenapp : ([k, r1, r2, r3, b4, b5, b6, b7] ++ p).length = 8 + p.length := by
    simp [List.length_append]
    omega
  have hgt : 8 < ([k, r1, r2, r3, b4, b5, b6, b7] ++ p).length := by
    rw [hlenapp]; omega
  rw [mplexLoop]
  simp only [List.nil_append]
  rw [parseStep_none _ hgt, frameLen_header, hlen]
  simp only [Option.getD_some]
  rw [if_pos ⟨hpos, by rw [hlenapp]; omega⟩]
  have hdrop : ([k, r1, r2, r3, b4, b5, b6, b7] ++ p).drop 8 = p := rfl
  have hdrop2 : ([k, r1, r2, r3, b4, b5, b6, b7] ++ p).drop (8 + p.length) = [] :=
    List.drop_eq_nil_of_le (by rw [hlenapp])
  rw [hdrop, List.take_length, hdrop2]

/-- While the parsed length stays falsy (zero) the loop consumes every
remaining chunk without emitting anything: all four length bytes of the
buffered header are zero, so every reparse yields the falsy zero again. -/
theorem mplexLoop_stalled (rest : List PyStr) :
    ∀ (buf : PyStr) (len : Option Nat), 8 ≤ buf.length → frameLen buf = 0 →
    (len = none ∨ len = some 0) → mplexLoop rest buf len = [] := by
  induction rest with
  | nil => intro buf len _ _ _; rfl
  | cons c cs ih =>
    intro buf len hblen hfl hlen
    have hstable : frameLen (buf ++ c) = 0 := by
      rw [frameLen_append _ _ hblen]; exact hfl
    have hps : parseStep len (buf ++ c) = none ∨ parseStep len (buf ++ c) = some 0 := by
      unfold parseStep
      split
      · rw [hstable]; exact Or.inr rfl
      · exact hlen
    have hL : (parseStep len (buf ++ c)).getD 0 = 0 := by
      rcases hps with h | h <;> simp [h]
    rw [mplexLoop, if_neg (by rw [hL]; simp)]
    exact ih (buf ++ c) _ (by rw [List.length_append]; omega) hstable hps

/-- A stream opening with a zero-length frame never emits: the zero parse
is falsy, so the loop reparses the same header forever. -/
theorem mplexLoop_zero_frame (k r1 r2 r3 b4 b5 b6 b7 : Char) (p : PyStr)
    (rest : List PyStr)
    (hzero : b4.toNat * 16777216 + b5.toNat * 65536 + b6.toNat * 256 + b7.toNat = 0) :
    mplexLoop (([k, r1, r2, r3, b4, b5, b6, b7] ++ p) :: rest) [] none = [] := by
  have h0 : frameLen ([k, r1, r2, r3, b4, b5, b6, b7] ++ p) = 0 := by
    rw [frameLen_header]; exact hzero
  have hblen : 8 ≤ ([k, r1, r2, r3, b4, b5, b6, b7] ++ p).length := by
    rw [List.length_append]; simp
  have hps : parseStep none ([k, r1, r2, r3, b4, b5, b6, b7] ++ p) = none
      ∨ parseStep none ([k, r1, r2, r3, b4, b5, b6, b7] ++ p) = some 0 := by
    unfold parseStep
    split
    · rw [h0]; exact Or.inr rfl
    · exact Or.inl rfl
  have hL : (parseStep none ([k, r1, r2, r3, b4, b5, b6, b7] ++ p)).getD 0 = 0 := by
    rcases hps with h | h <;> rw [h] <;> rfl
  rw [mplexLoop]
  simp only [List.nil_append]
  rw [if_neg (by rw [hL]; simp)]
  exact mplexLoop_stalled rest _ _ hblen h0 hps

/-- A single chunk of at most 8 bytes (end of input at or inside the
header) emits nothing. -/
theorem mplexLoop_short (b : PyStr) (hb : b.length ≤ 8) :
    mplexLoop [b] [] none = [] := by
  have hps : parseStep none ([] ++ b) = none := by
    unfold parseStep
    rw [if_neg (fun hc => absurd hc.2 (by simp; omega))]
  rw [mplexLoop, if_neg (by rw [hps]; simp)]
  rfl

/-- A single chunk holding a header and a strictly shorter payload than
announced (end of input mid-payload) emits nothing, in particular no
partial chunk. -/
theorem mplexLoop_incomplete (k r1 r2 r3 b4 b5 b6 b7 : Char) (p : PyStr)
    (hlt : p.length
      < b4.toNat * 16777216 + b5.toNat * 65536 + b6.toNat * 256 + b7.toNat) :
    mplexLoop [[k, r1, r2, r3, b4, b5, b6, b7] ++ p] [] none = [] := by
  have hlenapp : ([k, r1, r2, r3, b4, b5, b6, b7] ++ p).length = 8 + p.length := by
    simp [List.length_append]
    omega
  by_cases h8 : 8 < ([k, r1, r2, r3, b4, b5, b6, b7] ++ p).length
  · rw [mplexLoop]
    simp only [List.nil_append]
    rw [parseStep_none _ h8, frameLen_header]
    simp only [Option.getD_some]
    rw [if_neg (fun hc => absurd hc.2 (by rw [hlenapp]; omega))]
    rfl
  · exact mplexLoop_short _ (by omega)

/-- Every daemon call issued by a fleet-wide `get_instances` is an
inventory effect: no `stop`, no forced `remove`, no `create`. -/
theorem get_instances_effs (cfg : Config) (now : Int) (fil : Option PyStr)
    (fleet : List (PyStr × NodeDaemon)) :
    ∀ e ∈ (get_instances cfg fleet now fil).1, isInventoryEff e = true := by
  induction fleet with
  | nil => intro e he; simp [get_instances, get_instances_go] at he
  | cons nd rest ih =>
    intro e he
    rw [get_instances] at he ih
    cases nd with
    | mk n d =>
      rw [get_instances_go] at he
      split at he
      · exact ih e he
      · rw [List.mem_append] at he
        rcases he with h | h
        · exact get_node_instances_go_effs cfg n d now d.containers e h
        · exact ih e h

/-! Claim theorems. -/

/-- Claim C1: the claim states that admission compares
`used + requested` against `slots_per_node` with `used` the sum of the
`slots` fields of the node's instances.  The code instead compares the
NUMBER of instances plus the request: here the node runs two 4-slot
instances (slot sum 8) under a 10-slot cap and a request for 3 more slots
is admitted — `create` and `start` are issued and the instance returned —
although `8 + 3 > 10`, while the count-based test `2 + 3 ≤ 10` passes.
`get_node` computes `used` as the slot sum, so a start admitted this way
drives `used` past `slots_per_node`, contradicting the spec's
admission-safety invariant: the code, not the claim, is at fault. -/
theorem start_instance_admission_counts_instances :
    startC1.2.2 = .ok instNewC1
    ∧ startC1.2.1
        = [.create (("node-1").data) specC1,
            .start (("node-1").data) (("new1").data) (some [(8080, none)])]
    ∧ (get_instances cfg0 fleetC1 0 (some (("node-1").data))).2.length + 3
        ≤ cfg0.slotsPerNode
    ∧ cfg0.slotsPerNode
        < ((get_instances cfg0 fleetC1 0 (some (("node-1").data))).2.map
            (fun i => i.slots)).sum + 3 :=
  ⟨rfl, rfl, by decide, by decide⟩

/-- Claim C2 (amended): in `follow=false` mode `get_logs` splits the blob
on `"\n"` and emits one record per SPLIT PIECE — `line + "\n"` for each —
so a blob ending in a newline contributes a final record `"\n"` from the
trailing empty piece, and the record count is the newline count plus one;
for the blob `"this is line 1\nthis is line 2\n"` that is three records,
not two. -/
theorem get_logs_oneshot_splits_blob (cfg : Config)
    (fleet : List (PyStr × NodeDaemon)) (now : Int) (iid : PyStr)
    (inst : Instance) (d : NodeDaemon)
    (hFind : (get_instances cfg fleet now none).2.find? (fun i => i.id = iid)
      = some inst)
    (hNode : lookupNode fleet inst.node = some d) :
    (get_logs cfg fleet now iid false).2
        = .ok (.lines ((pySplit '\n' (d.logsBlob iid)).map (fun l => l ++ ['\n'])))
    ∧ ((pySplit '\n' (d.logsBlob iid)).map (fun l => l ++ ['\n'])).length
        = (d.logsBlob iid).count '\n' + 1
    ∧ (pySplit '\n' (("this is line 1\nthis is line 2\n").data)).map
          (fun l => l ++ ['\n'])
        = [("this is line 1\n").data, ("this is line 2\n").data, ("\n").data] := by
  refine ⟨?_, ?_, by decide⟩
  · simp [get_logs, hFind, hNode]
  · rw [List.length_map, pySplit_length]

/-- Claim C2 witness: the fixture fleet locates instance `i1` and the
theorem applies to it. -/
theorem get_logs_oneshot_witness :
    ((get_instances cfg0 fleetLog 0 none).2.find? (fun i => i.id = ("i1").data)
        = some instI1)
    ∧ (lookupNode fleetLog instI1.node = some dLog)
    ∧ ((get_logs cfg0 fleetLog 0 (("i1").data) false).2
          = .ok (.lines ((pySplit '\n' (dLog.logsBlob (("i1").data))).map
              (fun l => l ++ ['\n'])))
        ∧ ((pySplit '\n' (dLog.logsBlob (("i1").data))).map
              (fun l => l ++ ['\n'])).length
            = (dLog.logsBlob (("i1").data)).count '\n' + 1
        ∧ (pySplit '\n' (("this is line 1\nthis is line 2\n").data)).map
              (fun l => l ++ ['\n'])
            = [("this is line 1\n").data, ("this is line 2\n").data, ("\n").data]) :=
  ⟨rfl, rfl,
    get_logs_oneshot_splits_blob cfg0 fleetLog 0 (("i1").data) instI1 dLog rfl rfl⟩

/-- Claim C2 counterexample: on the blob of the claim, `get_logs` emits
THREE records — the claimed two plus a final `{msg: "\n"}` — because
Python's `split("\n")` keeps the empty piece after the trailing newline,
refuting "exactly the two records … and no others". -/
theorem get_logs_oneshot_trailing_record_cex :
    (get_logs cfg0 fleetLog 0 (("i1").data) false).2
      = .ok (.lines [("this is line 1\n").data, ("this is line 2\n").data,
          ("\n").data])
    ∧ ([("this is line 1\n").data, ("this is line 2\n").data, ("\n").data]
        : List PyStr)
      ≠ [("this is line 1\n").data, ("this is line 2\n").data] :=
  ⟨rfl, by decide⟩

/-- Claim C3 (amended): `start_instance` on an unconfigured node never
raises `NoSuchNodeException`: the node filter matches nothing, so
admission sees an empty inventory; if the resolved slot request exceeds
`slots_per_node` it raises `NodeOutOfCapacityException`, and otherwise
the unchecked dictionary access `self.node_connections[node]` raises a
`KeyError`. -/
theorem start_instance_unknown_node_keyerror (cfg : Config)
    (fleet : List (PyStr × NodeDaemon)) (now : Int)
    (app slug node : PyStr) (env : List (PyStr × PyStr)) (slots? : Option Nat)
    (hn : Option PyStr) (u : PyStr)
    (hne : node ≠ ([] : PyStr)) (hnone : lookupNode fleet node = none) :
    ((resolveSlots cfg slots? ≤ cfg.slotsPerNode →
        (start_instance cfg fleet now app slug node env slots? hn u).2.2
          = .error (.keyError node))
      ∧ (cfg.slotsPerNode < resolveSlots cfg slots? →
        (start_instance cfg fleet now app slug node env slots? hn u).2.2
          = .error .nodeOutOfCapacity))
    ∧ (start_instance cfg fleet now app slug node env slots? hn u).2.2
        ≠ .error .noSuchNode := by
  have hfilter : get_instances cfg fleet now (some node) = ([], []) :=
    get_instances_all_filtered cfg now node fleet hne (lookupNode_none fleet node hnone)
  have hres : (start_instance cfg fleet now app slug node env slots? hn u).2.2
      = (if cfg.slotsPerNode < resolveSlots cfg slots? then
          (.error .nodeOutOfCapacity : Except PyErr Instance)
        else .error (.keyError node)) := by
    simp only [start_instance, start_instance_body, hfilter, hnone]
    by_cases hc : cfg.slotsPerNode < resolveSlots cfg slots?
    · rw [if_pos (by simpa using hc), if_pos hc]
    · rw [if_neg (by simpa using hc), if_neg hc]
  refine ⟨⟨?_, ?_⟩, ?_⟩
  · intro hle
    rw [hres, if_neg (by omega)]
  · intro hlt
    rw [hres, if_pos hlt]
  · rw [hres]
    split <;> simp

/-- Claim C3 witness: requesting one slot on the unconfigured `node-2`
of the one-node fixture fleet. -/
theorem start_instance_unknown_node_witness :
    ((("node-2").data) ≠ ([] : PyStr))
    ∧ lookupNode fleetC1 (("node-2").data) = none
    ∧ (((resolveSlots cfg0 (some 1) ≤ cfg0.slotsPerNode →
          (start_instance cfg0 fleetC1 0 (("paye").data) (("https://x").data)
              (("node-2").data) [] (some 1) none (("u0").data)).2.2
            = .error (.keyError (("node-2").data)))
        ∧ (cfg0.slotsPerNode < resolveSlots cfg0 (some 1) →
          (start_instance cfg0 fleetC1 0 (("paye").data) (("https://x").data)
              (("node-2").data) [] (some 1) none (("u0").data)).2.2
            = .error .nodeOutOfCapacity))
      ∧ (start_instance cfg0 fleetC1 0 (("paye").data) (("https://x").data)
            (("node-2").data) [] (some 1) none (("u0").data)).2.2
          ≠ .error .noSuchNode) :=
  ⟨by decide, rfl,
    start_instance_unknown_node_keyerror cfg0 fleetC1 0 (("paye").data)
      (("https://x").data) (("node-2").data) [] (some 1) none (("u0").data)
      (by decide) rfl⟩

/-- Claim C3 counterexample: the call on unknown `node-2` fails with
`KeyError("node-2")`, which is not `NoSuchNodeException`. -/
theorem start_instance_unknown_node_cex :
    (start_instance cfg0 fleetC1 0 (("paye").data) (("https://x").data)
        (("node-2").data) [] (some 1) none (("u0").data)).2.2
      = .error (.keyError (("node-2").data))
    ∧ ((.error (.keyError (("node-2").data)) : Except PyErr Instance)
        ≠ .error .noSuchNode) :=
  ⟨rfl, by simp⟩

/-- Claim C4 (amended): a sentinel-time container triggers `start` then
`kill` and is not emitted, but the repair is NOT wrapped in any handler
inside `get_node_instances`: a failing `start` (or `kill`) raises out of
the pass, aborting it; the exception is logged and swallowed only at the
fleet level (`get_instances`), where the whole node then contributes zero
instances for that pass. -/
theorem sentinel_repair_start_kill_no_emit (cfg : Config) (node : PyStr)
    (d : NodeDaemon) (now : Int) (c : ContainerSummary)
    (cs : List ContainerSummary)
    (hUp : ((("Up ").data).isPrefixOf c.status) = false)
    (hSent : (d.inspect c.id).finishedAt = sentinelExit) :
    (get_node_instances_go cfg node d now (c :: cs)
      = (if d.startOk c.id then
          if d.killOk c.id then
            (.start node c.id none :: .kill node c.id ::
                (get_node_instances_go cfg node d now cs).1,
              (get_node_instances_go cfg node d now cs).2)
          else ([.start node c.id none, .kill node c.id], .error .apiError)
        else ([.start node c.id none], .error .apiError)))
    ∧ (∀ e, (get_node_instances cfg node d now).2 = .error e →
        (get_instances cfg [(node, d)] now none).2 = []) := by
  constructor
  · rw [get_node_instances_go, hSent, parseExitSecs_sentinel]
    simp [hUp]
  · intro e he
    simp [get_instances, get_instances_go, skipNode, okInstances, he]

/-- Claim C4 witness: the successful repair on the fixture daemon —
`start` then `kill` issued, the sentinel container not emitted, the rest
of the listing still processed. -/
theorem sentinel_repair_witness :
    (((("Up ").data).isPrefixOf sumSent.status) = false)
    ∧ ((dSentOk.inspect sumSent.id).finishedAt = sentinelExit)
    ∧ ((get_node_instances_go cfg0 (("node-s").data) dSentOk 0 (sumSent :: [sumUp2])
        = (if dSentOk.startOk sumSent.id then
            if dSentOk.killOk sumSent.id then
              (.start (("node-s").data) sumSent.id none
                  :: .kill (("node-s").data) sumSent.id ::
                  (get_node_instances_go cfg0 (("node-s").data) dSentOk 0 [sumUp2]).1,
                (get_node_instances_go cfg0 (("node-s").data) dSentOk 0 [sumUp2]).2)
            else ([.start (("node-s").data) sumSent.id none,
                .kill (("node-s").data) sumSent.id], .error .apiError)
          else ([.start (("node-s").data) sumSent.id none], .error .apiError)))
      ∧ (∀ e, (get_node_instances cfg0 (("node-s").data) dSentOk 0).2 = .error e →
          (get_instances cfg0 [((("node-s").data), dSentOk)] 0 none).2 = [])) :=
  ⟨by decide, by decide,
    sentinel_repair_start_kill_no_emit cfg0 (("node-s").data) dSentOk 0 sumSent
      [sumUp2] (by decide) (by decide)⟩

/-- Claim C4 counterexample: when `start` raises during the repair of the
sentinel container, `get_node_instances` propagates the exception — no
swallowing — so the healthy `Up` container listed after it is lost too,
and at the fleet level the node contributes zero instances. -/
theorem sentinel_repair_failure_propagates_cex :
    get_node_instances cfg0 (("node-s").data) dSentFail 0
      = ([.start (("node-s").data) (("s1").data) none], .error .apiError)
    ∧ (get_instances cfg0 [((("node-s").data), dSentFail)] 0 none).2 = [] :=
  ⟨rfl, rfl⟩

/-- Claim C5: an exited container whose `FinishedAt` is not the sentinel
is parsed by trimming the trailing `Z` and the sub-second fraction and
reading `YYYY-MM-DDTHH:MM:SS` (the `parseExitSecs` hypothesis); when the
current time minus the parsed exit time exceeds the grace period, exactly
one `remove` for that container is issued in the pass and the container
is not emitted — the remaining instances are exactly those of the rest of
the listing (`now` stands for `datetime.datetime.now()`, on the epoch
scale of the parsed timestamps). -/
theorem gc_removes_expired_exactly_once (cfg : Config) (node : PyStr)
    (d : NodeDaemon) (now : Int) (c : ContainerSummary)
    (cs : List ContainerSummary) (t : Int)
    (hUp : ((("Up ").data).isPrefixOf c.status) = false)
    (hSent : (d.inspect c.id).finishedAt ≠ sentinelExit)
    (hParse : parseExitSecs (d.inspect c.id).finishedAt = some t)
    (hOld : cfg.dockerGcGracePeriod < now - t) :
    get_node_instances_go cfg node d now (c :: cs)
      = (if d.removeOk c.id then
          (.remove node c.id false :: (get_node_instances_go cfg node d now cs).1,
            (get_node_instances_go cfg node d now cs).2)
        else ([.remove node c.id false], .error .apiError)) := by
  rw [get_node_instances_go, hParse]
  simp [hUp, hSent, hOld]

/-- Claim C5 witness: the fixture container exited at epoch second
1408524597 (`2014-08-20T08:49:57.123456Z`), inventoried 86401 seconds
later under an 86400-second grace period: one `remove`, nothing
emitted. -/
theorem gc_removes_expired_witness :
    (((("Up ").data).isPrefixOf sumOld5.status) = false)
    ∧ ((dOld5.inspect sumOld5.id).finishedAt ≠ sentinelExit)
    ∧ (parseExitSecs (dOld5.inspect sumOld5.id).finishedAt = some 1408524597)
    ∧ (cfg0.dockerGcGracePeriod < 1408610998 - 1408524597)
    ∧ (get_node_instances_go cfg0 (("node-5").data) dOld5 1408610998 (sumOld5 :: [])
        = (if dOld5.removeOk sumOld5.id then
            (.remove (("node-5").data) sumOld5.id false
                :: (get_node_instances_go cfg0 (("node-5").data) dOld5 1408610998 []).1,
              (get_node_instances_go cfg0 (("node-5").data) dOld5 1408610998 []).2)
          else ([.remove (("node-5").data) sumOld5.id false], .error .apiError))) :=
  ⟨by decide, by decide, by decide, by decide,
    gc_removes_expired_exactly_once cfg0 (("node-5").data) dOld5 1408610998 sumOld5
      [] 1408524597 (by decide) (by decide) (by decide) (by decide)⟩

/-- Claim C6 (amended): the name round trip holds exactly for app names
free of underscores: a container named `A + "_" + uuid`, stored with a
leading `"/"`, projects back to an instance whose `app` equals `A`
whenever `A` contains no `"_"`; in general projection recovers only the
prefix of the stored name up to its first `"_"`. -/
theorem app_name_round_trip_no_underscore (node : PyStr) (c : InspectRecord)
    (A uuid : PyStr) (hname : c.name = '/' :: (A ++ '_' :: uuid))
    (hA : '_' ∉ A) :
    appOfName c.name = A
    ∧ ∀ i, __get_instance node c = .ok i → i.app = A := by
  have happ : appOfName c.name = A := by
    rw [hname]
    exact appOfName_round_trip A uuid hA
  exact ⟨happ, fun i hi => by rw [__get_instance_app node c i hi, happ]⟩

/-- Claim C6 witness: the app name `paye` (no underscore) round-trips
through `recNew`, whose stored name is `/paye_u0`. -/
theorem app_name_round_trip_witness :
    (recNew.name = '/' :: (((("paye").data)) ++ '_' :: ((("u0").data))))
    ∧ ('_' ∉ (("paye").data))
    ∧ (appOfName recNew.name = ("paye").data
        ∧ ∀ i, __get_instance (("node-1").data) recNew = .ok i →
            i.app = ("paye").data) :=
  ⟨rfl, by decide,
    app_name_round_trip_no_underscore (("node-1").data) recNew (("paye").data)
      (("u0").data) rfl (by decide)⟩

/-- Claim C6 counterexample: the app name `paye_216` contains an
underscore, so its container `/paye_216_SOME-UUID` projects back to
`app = "paye"`, not `"paye_216"`, refuting the round trip for every app
name. -/
theorem app_name_round_trip_cex :
    __get_instance (("node-x").data) recC6
      = .ok ⟨("x1").data, ("paye").data, none, ("node-x").data, 9317, [], 2⟩
    ∧ ((("paye").data : PyStr) ≠ ("paye_216").data)
    ∧ recC6.name = '/' :: (((("paye_216").data)) ++ '_' :: ((("SOME-UUID").data))) :=
  ⟨rfl, by decide, rfl⟩

/-- Claim C7 (amended): `stop_instance` locates the instance through a
global `get_instances()`, whose inventory pass may itself issue GC side
effects.  On a miss it returns `false` having issued exactly the
inventory's effects — never a `stop` and never a forced `remove`, though
GC `remove`s (without `force`) can occur.  On a hit whose `stop`
succeeds it issues `stop` then `remove(force=True)` after the inventory
effects and returns `true` irrespective of whether the `remove`
succeeds. -/
theorem stop_instance_miss_and_hit (cfg : Config)
    (fleet : List (PyStr × NodeDaemon)) (now : Int) (iid : PyStr) :
    ((get_instances cfg fleet now none).2.find? (fun i => i.id = iid) = none →
      stop_instance cfg fleet now iid = ((get_instances cfg fleet now none).1, .ok false)
      ∧ ∀ e ∈ (get_instances cfg fleet now none).1, isInventoryEff e = true)
    ∧ (∀ inst d,
      (get_instances cfg fleet now none).2.find? (fun i => i.id = iid) = some inst →
      lookupNode fleet inst.node = some d → d.stopOk iid = true →
      stop_instance cfg fleet now iid
        = ((get_instances cfg fleet now none).1
            ++ [.stop inst.node iid, .remove inst.node iid true], .ok true)) := by
  constructor
  · intro hmiss
    refine ⟨?_, get_instances_effs cfg now none fleet⟩
    simp only [stop_instance, hmiss]
  · intro inst d hfind hlook hstop
    simp only [stop_instance, hfind, hlook, hstop, if_true]

/-- Claim C7 witness: a miss on the GC fixture fleet (returns `false`,
effects all inventory effects) and a hit on `i1` with a failing `remove`
(still `true`, `stop` then forced `remove` issued). -/
theorem stop_instance_witness :
    ((get_instances cfg0 fleetGC nowGC none).2.find?
        (fun i => i.id = ("missing").data) = none)
    ∧ (stop_instance cfg0 fleetGC nowGC (("missing").data)
          = ((get_instances cfg0 fleetGC nowGC none).1, .ok false)
        ∧ ∀ e ∈ (get_instances cfg0 fleetGC nowGC none).1, isInventoryEff e = true)
    ∧ ((get_instances cfg0 fleetLog 0 none).2.find?
        (fun i => i.id = ("i1").data) = some instI1)
    ∧ (dLog.stopOk (("i1").data) = true)
    ∧ stop_instance cfg0 fleetLog 0 (("i1").data)
        = ((get_instances cfg0 fleetLog 0 none).1
            ++ [.stop instI1.node (("i1").data),
                .remove instI1.node (("i1").data) true], .ok true) :=
  ⟨rfl,
    (stop_instance_miss_and_hit cfg0 fleetGC nowGC (("missing").data)).1 rfl,
    rfl, rfl,
    (stop_instance_miss_and_hit cfg0 fleetLog 0 (("i1").data)).2 instI1 dLog rfl rfl
      rfl⟩

/-- Claim C7 counterexample: stopping an unknown id over a fleet holding
one GC-eligible exited container returns `false` but DOES issue a
`remove` on that daemon (the GC remove of the inventory pass), refuting
"issues no stop or remove call on any daemon". -/
theorem stop_instance_miss_gc_remove_cex :
    stop_instance cfg0 fleetGC nowGC (("missing").data)
      = ([.remove (("node-g").data) (("g1").data) false], .ok false)
    ∧ Eff.remove (("node-g").data) (("g1").data) false
        ∈ (stop_instance cfg0 fleetGC nowGC (("missing").data)).1 :=
  ⟨rfl, by decide⟩

/-- Claim C8 (amended): the decoder parses the big-endian 32-bit length
`L` from bytes 4–7 once MORE than 8 bytes are buffered, and when `L ≥ 1`
and the payload is fully buffered it emits exactly one chunk of exactly
`L` bytes; after each emission it reads a further input chunk before
re-examining the buffer, so a complete frame whose bytes all arrived in
already-consumed chunks is dropped at end of input (final conjunct); a
frame announcing `L = 0` is treated as an unparsed falsy length and never
emits, blocking the stream; end of input at or inside a header, or inside
a payload, terminates with no partial chunk. -/
theorem log_stream_decoder_frames :
    (∀ (k r1 r2 r3 b4 b5 b6 b7 : Char) (p : PyStr) (rest : List PyStr),
        b4.toNat * 16777216 + b5.toNat * 65536 + b6.toNat * 256 + b7.toNat
          = p.length →
        1 ≤ p.length →
        __hacked_multiplexed_socket_stream_helper
            (([k, r1, r2, r3, b4, b5, b6, b7] ++ p) :: rest)
          = p :: __hacked_multiplexed_socket_stream_helper rest)
    ∧ (∀ b : PyStr, b.length ≤ 8 →
        __hacked_multiplexed_socket_stream_helper [b] = [])
    ∧ (∀ (k r1 r2 r3 b4 b5 b6 b7 : Char) (p : PyStr),
        p.length
            < b4.toNat * 16777216 + b5.toNat * 65536 + b6.toNat * 256 + b7.toNat →
        __hacked_multiplexed_socket_stream_helper
          [[k, r1, r2, r3, b4, b5, b6, b7] ++ p] = [])
    ∧ (∀ (k r1 r2 r3 b4 b5 b6 b7 : Char) (p : PyStr) (rest : List PyStr),
        b4.toNat * 16777216 + b5.toNat * 65536 + b6.toNat * 256 + b7.toNat = 0 →
        __hacked_multiplexed_socket_stream_helper
          (([k, r1, r2, r3, b4, b5, b6, b7] ++ p) :: rest) = [])
    ∧ __hacked_multiplexed_socket_stream_helper [chunkA, chunkB]
        = [[ 'A', 'B', 'C' ]] := by
  refine ⟨?_, ?_, ?_, ?_, rfl⟩
  · intro k r1 r2 r3 b4 b5 b6 b7 p rest hlen hpos
    exact mplexLoop_frame k r1 r2 r3 b4 b5 b6 b7 p rest hlen hpos
  · intro b hb
    exact mplexLoop_short b hb
  · intro k r1 r2 r3 b4 b5 b6 b7 p hlt
    exact mplexLoop_incomplete k r1 r2 r3 b4 b5 b6 b7 p hlt
  · intro k r1 r2 r3 b4 b5 b6 b7 p rest hz
    exact mplexLoop_zero_frame k r1 r2 r3 b4 b5 b6 b7 p rest hz

/-- Claim C8 witness: a one-byte payload framed by a length-1 header is
emitted exactly, resuming on the (empty) remaining input. -/
theorem log_stream_decoder_witness :
    ((byteChr 0).toNat * 16777216 + (byteChr 0).toNat * 65536
        + (byteChr 0).toNat * 256 + (byteChr 1).toNat = ([ 'X' ] : PyStr).length)
    ∧ (1 ≤ ([ 'X' ] : PyStr).length)
    ∧ __hacked_multiplexed_socket_stream_helper
          [[byteChr 1, byteChr 0, byteChr 0, byteChr 0, byteChr 0, byteChr 0,
            byteChr 0, byteChr 1] ++ [ 'X' ]]
        = [ 'X' ] :: __hacked_multiplexed_socket_stream_helper [] :=
  ⟨by decide, by decide,
    log_stream_decoder_frames.1 (byteChr 1) (byteChr 0) (byteChr 0) (byteChr 0)
      (byteChr 0) (byteChr 0) (byteChr 0) (byteChr 1) [ 'X' ] [] (by decide)
      (by decide)⟩

/-- Claim C8 counterexample: two complete frames (payloads `ABC` and `X`)
delivered as chunks of 10 and 9 bytes: after emitting `ABC` the loop
first demands another chunk, hits end of input, and returns — the fully
buffered second frame is never emitted, refuting "emits exactly one
payload chunk of exactly L bytes before resuming with the next
header". -/
theorem log_stream_decoder_dropped_frame_cex :
    __hacked_multiplexed_socket_stream_helper [chunkA, chunkB] = [[ 'A', 'B', 'C' ]]
    ∧ ([[ 'A', 'B', 'C' ]] : List PyStr) ≠ [[ 'A', 'B', 'C' ], [ 'X' ]] :=
  ⟨rfl, by decide⟩

/-- Claim C9 (amended): a malformed port binding makes `__get_instance`
raise (`ValueError`/`KeyError`, there is no `MalformedRecord` type), and
`get_node_instances` has no handler: the pass aborts with that error, so
NO container of that node is emitted — not even well-formed ones; only
the fleet level logs the per-node failure and skips the node, other
nodes' instances still being returned. -/
theorem projection_error_aborts_pass :
    (∀ (cfg : Config) (node : PyStr) (d : NodeDaemon) (now : Int)
        (c : ContainerSummary) (cs : List ContainerSummary) (e : PyErr)
        (p : PortEntry),
      ((("Up ").data).isPrefixOf c.status) = true →
      c.ports = [p] → p.privatePort = 8080 →
      __get_instance node (d.inspect c.id) = .error e →
      get_node_instances_go cfg node d now (c :: cs) = ([], .error e))
    ∧ (∀ (cfg : Config) (now : Int) (n1 : PyStr) (d1 : NodeDaemon) (n2 : PyStr)
        (d2 : NodeDaemon) (e : PyErr),
      (get_node_instances cfg n1 d1 now).2 = .error e →
      (get_instances cfg [(n1, d1), (n2, d2)] now none).2
        = okInstances (get_node_instances cfg n2 d2 now).2) := by
  constructor
  · intro cfg node d now c cs e p hUp hports hpp hproj
    rw [get_node_instances_go, hports]
    simp [hUp, hpp, hproj]
  · intro cfg now n1 d1 n2 d2 e he
    simp [get_instances, get_instances_go, skipNode, okInstances, he]

/-- Claim C9 witness: the general parts applied to the fixture daemon
whose second `Up` container has the non-numeric host port `none`. -/
theorem projection_error_witness :
    (((("Up ").data).isPrefixOf sumBad.status) = true)
    ∧ (sumBad.ports = [⟨8080⟩])
    ∧ (__get_instance (("node-9").data) (dC9.inspect sumBad.id)
        = .error .valueError)
    ∧ (get_node_instances_go cfg0 (("node-9").data) dC9 0 (sumBad :: [])
        = ([], .error .valueError))
    ∧ ((get_node_instances cfg0 (("node-9").data) dC9 0).2 = .error .valueError)
    ∧ ((get_instances cfg0 [((("node-9").data), dC9), ((("node-l").data), dLog)] 0 none).2
        = okInstances (get_node_instances cfg0 (("node-l").data) dLog 0).2) :=
  ⟨by decide, rfl, rfl,
    projection_error_aborts_pass.1 cfg0 (("node-9").data) dC9 0 sumBad []
      .valueError ⟨8080⟩ (by decide) rfl rfl rfl,
    rfl,
    projection_error_aborts_pass.2 cfg0 0 (("node-9").data) dC9 (("node-l").data)
      dLog .valueError rfl⟩

/-- Claim C9 counterexample: on a node listing a well-formed `Up`
container and then one whose `HostPort` is the non-numeric `"none"`, the
whole pass fails with `ValueError` and returns NO instances — the
well-formed sibling (shown to project fine) is not emitted either,
refuting "the offending record is skipped, and the remaining containers
of that node are still emitted". -/
theorem projection_error_cex :
    get_node_instances cfg0 (("node-9").data) dC9 0 = ([], .error .valueError)
    ∧ __get_instance (("node-9").data) (dC9.inspect (("c2").data))
        = .ok ⟨("c2").data, ("app2").data, none, ("node-9").data, 9317,
            [((("JAVA_OPTS").data), (("-Xmx256m").data))], 4⟩ :=
  ⟨rfl, rfl⟩

/-- Claim C10: `start_instance` writes `PORT="8080"` then
`SLUG_URL=slug_uri` into the caller's environment mapping in place — the
mapping it uses IS the caller's object with the two entries inserted (no
copy) — and because the `environment={}` default is one shared
module-level dict, a call omitting the argument leaves both entries in
the shared default, where a later defaulted call finds and reuses that
same non-empty object. -/
theorem default_env_mutation_persists (cfg : Config)
    (fleet : List (PyStr × NodeDaemon)) (now : Int) (app s1 s2 node : PyStr)
    (slots? : Option Nat) (hn : Option PyStr) (u : PyStr)
    (e : List (PyStr × PyStr)) :
    (start_instance cfg fleet now app s1 node e slots? hn u).1
        = startEnvWrites e s1
    ∧ (start_instance_defaulted cfg fleet now app s1 node none slots? hn u []).2
        = [((("PORT").data), (("8080").data)), ((("SLUG_URL").data), s1)]
    ∧ dictFind? [((("PORT").data), (("8080").data)), ((("SLUG_URL").data), s1)]
          (("PORT").data) = some (("8080").data)
    ∧ dictFind? [((("PORT").data), (("8080").data)), ((("SLUG_URL").data), s1)]
          (("SLUG_URL").data) = some s1
    ∧ ([((("PORT").data), (("8080").data)), ((("SLUG_URL").data), s1)]
          : List (PyStr × PyStr)) ≠ []
    ∧ (start_instance_defaulted cfg fleet now app s2 node none slots? hn u
          [((("PORT").data), (("8080").data)), ((("SLUG_URL").data), s1)]).1.1
        = startEnvWrites
            [((("PORT").data), (("8080").data)), ((("SLUG_URL").data), s1)] s2 :=
  ⟨rfl, rfl, rfl, rfl, by simp, rfl⟩

end Captain

